import Mathlib

set_option maxRecDepth 100000

/-!
A shallow embedding of the notebook `io.ipynb`: a script that downloads a
CSV dataset, label-encodes one categorical column, and renders a fixed
sequence of statistical charts to image files.

The dataset is modelled as an ordered list of named columns, each either
numeric (rational values; the floats of the notebook carry no claim-relevant
rounding behaviour) or string-valued.  Side effects (drive mount,
directory creation, diagnostic prints, image writes, figure lifecycle,
process exit) are modelled as an explicit effect trace, so that the run
is a pure function from the acquisition outcome to a list of effects.
-/

/-- The values of one column: numeric (pandas float/int dtype) or string (object dtype). -/
inductive ColData where
  | nums (xs : List ℚ)
  | strs (xs : List String)
deriving DecidableEq, Repr

/-- A named column of the tabular dataset. -/
structure Column where
  name : String
  data : ColData
deriving DecidableEq, Repr

/-- The in-memory tabular dataset (`pandas.DataFrame`): an ordered list of named columns. -/
structure DataFrame where
  cols : List Column
deriving DecidableEq, Repr

/-- Whether a column holds numeric data (its dtype is included by `select_dtypes(include=np.number)`). -/
def ColData.isNums : ColData → Bool
  | .nums _ => true
  | .strs _ => false

/-- Number of distinct values in a column. -/
def ColData.distinctCount : ColData → Nat
  | .nums xs => xs.toFinset.card
  | .strs xs => xs.toFinset.card

/-- `name in df.columns`. -/
def hasCol (df : DataFrame) (n : String) : Bool :=
  df.cols.any (fun c => c.name == n)

/-- `df[name]`: the first column with the given name, if any. -/
def getCol (df : DataFrame) (n : String) : Option Column :=
  df.cols.find? (fun c => c.name == n)

/-- `df[name] = data`: replace the column in place if present, else append it. -/
def setCol (df : DataFrame) (n : String) (d : ColData) : DataFrame :=
  if df.cols.any (fun c => c.name == n) then
    ⟨df.cols.map (fun c => if c.name == n then ⟨n, d⟩ else c)⟩
  else ⟨df.cols ++ [⟨n, d⟩]⟩

/-! ## Constants (`Constantes e Configurações`) -/

def DRIVE_MOUNT_PATH : String := "/content/drive"

/-- `os.path.join(DRIVE_MOUNT_PATH, "MyDrive", "graficos")`. -/
def GRAPHPATH : String := DRIVE_MOUNT_PATH ++ "/MyDrive/graficos"

/-- `os.path.join(DRIVE_MOUNT_PATH, "MyDrive", "sumarios")`. -/
def SUMMARYPATH : String := DRIVE_MOUNT_PATH ++ "/MyDrive/sumarios"

def DEFAULT_PALETTE : String := "viridis"

/-- `FIGSIZE = (10, 6)`. -/
def FIGSIZE : Nat × Nat := (10, 6)

def DATASET_URL : String :=
  "https://docs.google.com/spreadsheets/d/1_jKH6GX7N7Vutxn4dJ_fKeLDJraLaz9jXLUKTRIiu4c/export?format=csv"

/-- `os.path.join a b` for the two-argument joins used by the script. -/
def jp (a b : String) : String := a ++ "/" ++ b

/-- Split a character list at every occurrence of `sep`, keeping empty segments
(the behaviour of `str.split(sep)` / `String.splitOn` for a one-character separator). -/
def splitChar (sep : Char) : List Char → List (List Char)
  | [] => [[]]
  | c :: cs =>
    let r := splitChar sep cs
    if c == sep then [] :: r
    else
      match r with
      | [] => [[c]]
      | h :: t => (c :: h) :: t

/-- Split a string at every occurrence of the character `sep`. -/
def strSplit (sep : Char) (s : String) : List String :=
  (splitChar sep s.data).map (fun cs => (⟨cs⟩ : String))

/-- `os.path.dirname`. -/
def dirname (p : String) : String := String.intercalate "/" ((strSplit '/' p).dropLast)

/-! ## CSV parsing (`pd.read_csv` on the decoded response body)

Simplifications, none load-bearing for the claims: quoted fields and
scientific-notation numerals are not modelled, and a data row whose field
count differs from the header is treated as a parse failure (pandas
raises on over-long rows and NaN-pads short ones; the claims only need
that malformed bodies yield the no-dataset signal). -/

/-- Read a non-empty all-digit character sequence as a natural number. -/
def digitsToNat (cs : List Char) : Option Nat :=
  if cs.isEmpty then none
  else if cs.all (fun c => c.isDigit) then
    some (cs.foldl (fun acc c => 10 * acc + (c.toNat - 48)) 0)
  else none

/-- Parse a decimal numeral (optional leading minus, optional fractional part). -/
def parseDecimal (s : String) : Option ℚ :=
  let core := fun (t : List Char) =>
    match splitChar '.' t with
    | [a] => (digitsToNat a).map (fun n => (n : ℚ))
    | [a, b] =>
      match digitsToNat a, digitsToNat b with
      | some n, some m => some ((n : ℚ) + (m : ℚ) / ((10 : ℚ) ^ b.length))
      | _, _ => none
    | _ => none
  match s.data with
  | '-' :: rest => (core rest).map (fun q => -q)
  | cs => core cs

/-- Split a CSV line into fields. -/
def splitRow (line : String) : List String := strSplit ',' line

/-- `pd.read_csv(io.StringIO content)`: header row then data rows; a column is
numeric when every cell parses as a decimal numeral, string-valued otherwise. -/
def read_csv (s : String) : Option DataFrame :=
  let lines := (strSplit '\n' s).filter (fun l => !(l == ""))
  match lines with
  | [] => none
  | header :: rows =>
    let names := splitRow header
    let cells := rows.map splitRow
    if cells.all (fun r => r.length == names.length) then
      some ⟨(List.range names.length).map (fun j =>
        let colCells := cells.map (fun r => r.getD j "")
        match colCells.mapM parseDecimal with
        | some qs => ⟨names.getD j "", ColData.nums qs⟩
        | none => ⟨names.getD j "", ColData.strs colCells⟩)⟩
    else none

/-! ## Data acquisition (`load_data_from_url`)

The HTTP layer is modelled by its observable outcome: either a network
error, or a response with a status code and a body.  The body is given
post-UTF-8-decoding: `none` stands for a byte sequence that is not valid
UTF-8 (so `.decode` raises). -/

inductive FetchOutcome where
  | netError (msg : String)
  | response (status : Nat) (body : Option String)
deriving DecidableEq, Repr

/-- `response.raise_for_status()` raises exactly for 4xx and 5xx status codes. -/
def raisesForStatus (status : Nat) : Bool := 400 ≤ status && status < 600

/-! ## Effects and chart specifications -/

/-- What a single chart invocation draws, mirroring the arguments of the seaborn call. -/
inductive ChartKind where
  | histogram (column : String) (bins : Nat) (kde : Bool) (color : String)
  | boxplot (x y : String) (hue : Option String) (palette : String)
  | scatter (x y : String) (hue style : Option String) (palette : String)
  | violin (x y : String) (hue : Option String) (split : Bool) (palette : String)
  | heatmap (labels : List String) (annot : Bool) (fmt : String) (cmap : String)
deriving DecidableEq, Repr

/-- The figure content at save time: the dataset it reads, the plot call, the title. -/
structure ChartSpec where
  data : DataFrame
  kind : ChartKind
  title : String
deriving DecidableEq, Repr

/-- Observable side effects of the script, in program order. -/
inductive Effect where
  | mountDrive (path : String) (forceRemount : Bool)
  | mkdir (path : String)
  | newFigure (w h : Nat)
  | message (m : String)
  | writeImage (path : String) (spec : ChartSpec)
  | closeFigure
  | exitRun
deriving DecidableEq, Repr

/-- `save_fig(filename)`: ensure the directory exists, write the image, close the figure. -/
def save_fig (filename : String) (spec : ChartSpec) : List Effect :=
  let filepath := jp GRAPHPATH filename
  [Effect.mkdir (dirname filepath), Effect.writeImage filepath spec, Effect.closeFigure]

/-- `create_figure()`. -/
def create_figure : List Effect := [Effect.newFigure FIGSIZE.1 FIGSIZE.2]

/-- `load_data_from_url(url)`: returns the dataset, or `none` plus a diagnostic on
any failure (network error, 4xx/5xx status, UTF-8 decode failure, CSV parse failure). -/
def load_data_from_url (f : FetchOutcome) : Option DataFrame × List Effect :=
  let failed := fun (msg : String) =>
    ((none : Option DataFrame), [Effect.message ("Erro ao carregar dados da URL: " ++ msg)])
  match f with
  | .netError msg => failed msg
  | .response status body =>
    if raisesForStatus status then
      failed (toString status ++ " Error for url: " ++ DATASET_URL)
    else
      match body with
      | none => failed "invalid utf-8 byte sequence"
      | some content =>
        match read_csv content with
        | none => failed "Error tokenizing data"
        | some df => (some df, [])

/-! ## Chart generators (`generate_*`)

Each creates a figure, issues one plotting call (recorded as the
`ChartSpec`), sets the title, and saves.  Axis-label rotation is pure
display styling with no claim-relevant content and is not recorded. -/

def generate_boxplot (df : DataFrame) (x y title filename : String) (hue : Option String) :
    List Effect :=
  create_figure ++ save_fig filename ⟨df, ChartKind.boxplot x y hue DEFAULT_PALETTE, title⟩

def generate_histogram (df : DataFrame) (column title filename : String) (bins : Nat)
    (kde : Bool) : List Effect :=
  create_figure ++ save_fig filename ⟨df, ChartKind.histogram column bins kde "skyblue", title⟩

def generate_scatterplot (df : DataFrame) (x y title filename : String)
    (hue style : Option String) : List Effect :=
  create_figure ++ save_fig filename ⟨df, ChartKind.scatter x y hue style DEFAULT_PALETTE, title⟩

/-- `df.select_dtypes(include=np.number)`. -/
def select_numeric (df : DataFrame) : DataFrame :=
  ⟨df.cols.filter (fun c => c.data.isNums)⟩

/-- The row/column labels of the correlation matrix `df.select_dtypes(include=np.number).corr()`;
the matrix is square over exactly these labels. -/
def corrLabels (df : DataFrame) : List String :=
  (select_numeric df).cols.map (fun c => c.name)

/-- `generate_heatmap`.  The `sns.heatmap` call is modelled as total: on a
dataset with no numeric columns at all the real call raises `ValueError`
(reducing the empty 0×0 correlation matrix) before `save_fig`; every concrete
input settled below keeps at least one numeric column, where the call renders
and saves normally. -/
def generate_heatmap (df : DataFrame) (title filename : String) (annot : Bool) : List Effect :=
  create_figure ++
    save_fig filename ⟨df, ChartKind.heatmap (corrLabels df) annot ".2f" DEFAULT_PALETTE, title⟩

def generate_violinplot (df : DataFrame) (x y title filename : String) (hue : Option String)
    (split : Bool) : List Effect :=
  create_figure ++ save_fig filename ⟨df, ChartKind.violin x y hue split DEFAULT_PALETTE, title⟩

/-! ## Label encoding (`sklearn.preprocessing.LabelEncoder`)

`fit_transform` computes the sorted list of distinct values (`np.unique`)
and maps each value to its index in that list.  Strings compare
lexicographically by code point, numbers by value. -/

/-- Lexicographic code-point comparison of character sequences
(Python / numpy string ordering). -/
def lexLe : List Char → List Char → Bool
  | [], _ => true
  | _ :: _, [] => false
  | a :: as, b :: bs => if a == b then lexLe as bs else decide (a.toNat < b.toNat)

/-- String comparison used when sorting the encoder classes. -/
def strLe (a b : String) : Bool := lexLe a.data b.data

/-- Numeric comparison used when sorting the encoder classes. -/
def ratLe (a b : ℚ) : Bool := decide (a ≤ b)

/-- The encoder classes: distinct values in ascending `le` order. -/
def labelClasses {α : Type} [DecidableEq α] (le : α → α → Bool) (xs : List α) : List α :=
  List.insertionSort (fun a b => le a b = true) xs.dedup

/-- `LabelEncoder().fit_transform(xs)`. -/
def labelEncode {α : Type} [DecidableEq α] (le : α → α → Bool) (xs : List α) : List Nat :=
  xs.map (fun v => (labelClasses le xs).indexOf v)

/-- Label-encode the values of a column into an integer-valued (numeric) column. -/
def encodeColData : ColData → ColData
  | .nums xs => .nums ((labelEncode ratLe xs).map (fun n : Nat => (n : ℚ)))
  | .strs xs => .nums ((labelEncode strLe xs).map (fun n : Nat => (n : ℚ)))

/-! ## Main sequence (`__main__`) -/

/-- The pre-processing block: if `CategoriaPrompt` exists, store its label
encoding as column `CategoriaPrompt_encoded`; otherwise print a diagnostic.
(The membership test `in df.columns` is equivalent to `getCol` succeeding.) -/
def encodeStage (df : DataFrame) : DataFrame × List Effect :=
  match getCol df "CategoriaPrompt" with
  | some c => (setCol df "CategoriaPrompt_encoded" (encodeColData c.data), [])
  | none =>
    (df, [Effect.message "Coluna \x27CategoriaPrompt\x27 não encontrada para Label Encoding."])

/-- The four human-evaluation columns iterated over by analysis blocks 1 and 2. -/
def humanCols : List String :=
  ["Coerencia (Humana)", "Relevancia (Humana)", "Profundidade (Humana)", "Consciencia (Humana)"]

/-- Block 1: one histogram per human-evaluation column, each gated on that column. -/
def step1 (df : DataFrame) : List Effect :=
  (humanCols.map (fun col =>
    if hasCol df col then
      generate_histogram df col ("Distribuição de " ++ col) ("1_hist_" ++ col ++ ".png") 20 true
    else
      [Effect.message ("A coluna \x27" ++ col ++ "\x27 não foi encontrada no DataFrame.")])).flatten

/-- Block 2: one boxplot per human-evaluation column, gated on `CategoriaPrompt` and that column. -/
def step2 (df : DataFrame) : List Effect :=
  (humanCols.map (fun col =>
    if hasCol df "CategoriaPrompt" && hasCol df col then
      generate_boxplot df "CategoriaPrompt" col (col ++ " por Categoria de Prompt")
        ("2_boxplot_" ++ col ++ ".png") none
    else
      [Effect.message
        ("Colunas necessárias (\x27CategoriaPrompt\x27 ou \x27" ++ col ++ "\x27) não encontradas.")])).flatten

/-- The inline hue argument: `CategoriaPrompt_encoded` if that column exists in `df.columns`, else `None`. -/
def encodedHue (df : DataFrame) : Option String :=
  if hasCol df "CategoriaPrompt_encoded" then some "CategoriaPrompt_encoded" else none

/-- Block 3: BLEU vs. ROUGE scatterplot. -/
def step3 (df : DataFrame) : List Effect :=
  if hasCol df "BLEU" && hasCol df "ROUGE" then
    generate_scatterplot df "BLEU" "ROUGE" "BLEU vs. ROUGE" "3_scatter_bleu_rouge.png"
      (encodedHue df) none
  else [Effect.message "Colunas \x27BLEU\x27 ou \x27ROUGE\x27 não encontradas."]

/-- Block 4: perplexity histogram. -/
def step4 (df : DataFrame) : List Effect :=
  if hasCol df "Perplexidade" then
    generate_histogram df "Perplexidade" "Distribuição da Perplexidade"
      "4_hist_perplexidade.png" 20 true
  else [Effect.message "Coluna \x27Perplexidade\x27 não encontrada."]

/-- Block 5: perplexity violin plot by category. -/
def step5 (df : DataFrame) : List Effect :=
  if hasCol df "Perplexidade" && hasCol df "CategoriaPrompt" then
    generate_violinplot df "CategoriaPrompt" "Perplexidade" "Perplexidade por Categoria de Prompt"
      "5_violin_perplexidade.png" none false
  else
    [Effect.message "Colunas necessárias (\x27CategoriaPrompt\x27 ou \x27Perplexidade\x27) não encontradas."]

/-- Block 6: perplexity vs. coherence scatterplot. -/
def step6 (df : DataFrame) : List Effect :=
  if hasCol df "Perplexidade" && hasCol df "Coerencia (Humana)" then
    generate_scatterplot df "Perplexidade" "Coerencia (Humana)" "Perplexidade vs. Coerência"
      "6_scatter_perplexidade_coerencia.png" (encodedHue df) none
  else [Effect.message "Colunas \x27Perplexidade\x27 ou \x27Coerencia (Humana)\x27 não encontradas."]

/-- Block 7: correlation heatmap — invoked unconditionally, with no column gate. -/
def step7 (df : DataFrame) : List Effect :=
  generate_heatmap df "Heatmap de Correlação" "7_heatmap.png" true

/-- Block 8: diversity vs. originality scatterplot. -/
def step8 (df : DataFrame) : List Effect :=
  if hasCol df "Diversidade" && hasCol df "Originalidade" then
    generate_scatterplot df "Diversidade" "Originalidade" "Diversidade vs. Originalidade"
      "8_scatter_diversidade_originalidade.png" (encodedHue df) none
  else [Effect.message "Colunas \x27Diversidade\x27 ou \x27Originalidade\x27 não encontradas."]

/-- Block 9: diversity boxplot by category. -/
def step9 (df : DataFrame) : List Effect :=
  if hasCol df "Diversidade" && hasCol df "CategoriaPrompt" then
    generate_boxplot df "CategoriaPrompt" "Diversidade" "Diversidade por Categoria de Prompt"
      "9_boxplot_diversidade.png" none
  else
    [Effect.message "Colunas necessárias (\x27CategoriaPrompt\x27 ou \x27Diversidade\x27) não encontradas."]

/-- Block 10: originality boxplot by category. -/
def step10 (df : DataFrame) : List Effect :=
  if hasCol df "Originalidade" && hasCol df "CategoriaPrompt" then
    generate_boxplot df "CategoriaPrompt" "Originalidade" "Originalidade por Categoria de Prompt"
      "10_boxplot_originalidade.png" none
  else
    [Effect.message "Colunas necessárias (\x27CategoriaPrompt\x27 ou \x27Originalidade\x27) não encontradas."]

/-- Block 11: depth vs. awareness scatterplot. -/
def step11 (df : DataFrame) : List Effect :=
  if hasCol df "Profundidade (Humana)" && hasCol df "Consciencia (Humana)" then
    generate_scatterplot df "Profundidade (Humana)" "Consciencia (Humana)"
      "Profundidade vs. Consciência" "11_scatter_profundidade_consciencia.png"
      (encodedHue df) none
  else
    [Effect.message "Colunas \x27Profundidade (Humana)\x27 ou \x27Consciencia (Humana)\x27 não encontradas."]

/-- The eleven analysis blocks, in program order, over the (already encoded) dataset. -/
def analysisStage (df : DataFrame) : List Effect :=
  step1 df ++ step2 df ++ step3 df ++ step4 df ++ step5 df ++ step6 df ++ step7 df ++
    step8 df ++ step9 df ++ step10 df ++ step11 df

/-- Everything after a successful load: encoding, the eleven analysis blocks,
and the final success message. -/
def pipelineAfterLoad (df : DataFrame) : List Effect :=
  (encodeStage df).2 ++ analysisStage (encodeStage df).1 ++
    [Effect.message "Análise e gráficos gerados com sucesso!"]

/-- `drive.mount(...)` and the two `os.makedirs` calls at the start of `__main__`. -/
def startupEffects : List Effect :=
  [Effect.mountDrive DRIVE_MOUNT_PATH true, Effect.mkdir GRAPHPATH, Effect.mkdir SUMMARYPATH]

/-- The whole `__main__` run, as a function of the acquisition outcome. -/
def mainRun (f : FetchOutcome) : List Effect :=
  startupEffects ++
    match load_data_from_url f with
    | (none, effs) =>
      effs ++ [Effect.message "Não foi possível carregar os dados. Encerrando.", Effect.exitRun]
    | (some df, effs) => effs ++ pipelineAfterLoad df

/-! ## Observations of a run -/

/-- The image-file paths written by a list of effects, in order. -/
def writtenImages (effs : List Effect) : List String :=
  effs.filterMap (fun e =>
    match e with
    | .writeImage p _ => some p
    | _ => none)

/-- The diagnostic messages printed by a list of effects, in order. -/
def diagnostics (effs : List Effect) : List String :=
  effs.filterMap (fun e =>
    match e with
    | .message m => some m
    | _ => none)

/-- The chart specifications written by a list of effects, in order. -/
def writtenSpecs (effs : List Effect) : List ChartSpec :=
  effs.filterMap (fun e =>
    match e with
    | .writeImage _ s => some s
    | _ => none)

/-! ## The per-artifact gating table

Read off the eleven analysis blocks: each potential image artifact, the
columns its guard checks, and the diagnostic printed when the guard
fails.  Block 7 (the heatmap) has no guard, hence an empty required list
and an unreachable diagnostic slot. -/

structure ArtifactSpec where
  filename : String
  required : List String
  diag : String
deriving DecidableEq, Repr

def table1 : List ArtifactSpec :=
  humanCols.map (fun col =>
    ⟨"1_hist_" ++ col ++ ".png", [col],
      "A coluna \x27" ++ col ++ "\x27 não foi encontrada no DataFrame."⟩)

def table2 : List ArtifactSpec :=
  humanCols.map (fun col =>
    ⟨"2_boxplot_" ++ col ++ ".png", ["CategoriaPrompt", col],
      "Colunas necessárias (\x27CategoriaPrompt\x27 ou \x27" ++ col ++ "\x27) não encontradas."⟩)

def table3 : List ArtifactSpec :=
  [⟨"3_scatter_bleu_rouge.png", ["BLEU", "ROUGE"],
    "Colunas \x27BLEU\x27 ou \x27ROUGE\x27 não encontradas."⟩]

def table4 : List ArtifactSpec :=
  [⟨"4_hist_perplexidade.png", ["Perplexidade"], "Coluna \x27Perplexidade\x27 não encontrada."⟩]

def table5 : List ArtifactSpec :=
  [⟨"5_violin_perplexidade.png", ["Perplexidade", "CategoriaPrompt"],
    "Colunas necessárias (\x27CategoriaPrompt\x27 ou \x27Perplexidade\x27) não encontradas."⟩]

def table6 : List ArtifactSpec :=
  [⟨"6_scatter_perplexidade_coerencia.png", ["Perplexidade", "Coerencia (Humana)"],
    "Colunas \x27Perplexidade\x27 ou \x27Coerencia (Humana)\x27 não encontradas."⟩]

def table7 : List ArtifactSpec := [⟨"7_heatmap.png", [], ""⟩]

def table8 : List ArtifactSpec :=
  [⟨"8_scatter_diversidade_originalidade.png", ["Diversidade", "Originalidade"],
    "Colunas \x27Diversidade\x27 ou \x27Originalidade\x27 não encontradas."⟩]

def table9 : List ArtifactSpec :=
  [⟨"9_boxplot_diversidade.png", ["Diversidade", "CategoriaPrompt"],
    "Colunas necessárias (\x27CategoriaPrompt\x27 ou \x27Diversidade\x27) não encontradas."⟩]

def table10 : List ArtifactSpec :=
  [⟨"10_boxplot_originalidade.png", ["Originalidade", "CategoriaPrompt"],
    "Colunas necessárias (\x27CategoriaPrompt\x27 ou \x27Originalidade\x27) não encontradas."⟩]

def table11 : List ArtifactSpec :=
  [⟨"11_scatter_profundidade_consciencia.png", ["Profundidade (Humana)", "Consciencia (Humana)"],
    "Colunas \x27Profundidade (Humana)\x27 ou \x27Consciencia (Humana)\x27 não encontradas."⟩]

def artifactTable : List ArtifactSpec :=
  table1 ++ table2 ++ table3 ++ table4 ++ table5 ++ table6 ++ table7 ++ table8 ++ table9 ++
    table10 ++ table11

/-- A guard passes exactly when every column it checks is present. -/
def allPresent (df : DataFrame) (a : ArtifactSpec) : Bool :=
  a.required.all (fun c => hasCol df c)

/-- The ten dataset columns referenced by the analysis guards. -/
def expectedColumns : List String :=
  ["CategoriaPrompt", "Coerencia (Humana)", "Relevancia (Humana)", "Profundidade (Humana)",
    "Consciencia (Humana)", "BLEU", "ROUGE", "Perplexidade", "Diversidade", "Originalidade"]

/-- The seventeen image paths a fully-populated run writes, in program order. -/
def allArtifactPaths : List String := artifactTable.map (fun a => jp GRAPHPATH a.filename)

/-- The acquisition outcomes the failure contract covers: network error,
4xx/5xx status, UTF-8 decode failure, or CSV parse failure. -/
def acquisitionFails : FetchOutcome → Bool
  | .netError _ => true
  | .response status body =>
    raisesForStatus status ||
      match body with
      | none => true
      | some content => (read_csv content).isNone

/-- Whether one character sequence starts with another. -/
def listStarts : List Char → List Char → Bool
  | [], _ => true
  | _ :: _, [] => false
  | a :: as, b :: bs => a == b && listStarts as bs

/-- Whether path `p` lies strictly inside directory `dir`. -/
def underDir (dir p : String) : Bool := listStarts (dir ++ "/").data p.data

/-! ## Concrete inputs used by witnesses and counterexamples -/

/-- A well-formed CSV body carrying every expected column. -/
def fullCsv : String :=
  "CategoriaPrompt,Coerencia (Humana),Relevancia (Humana),Profundidade (Humana),Consciencia (Humana),BLEU,ROUGE,Perplexidade,Diversidade,Originalidade\n" ++
  "criativo,4,5,3,4,31,42,12,7,8\n" ++
  "tecnico,3,4,2,3,28,39,15,6,7\n" ++
  "criativo,5,5,4,4,35,47,10,8,9\n"

/-- A successful fetch of `fullCsv`. -/
def fullFetch : FetchOutcome := FetchOutcome.response 200 (some fullCsv)

/-- The dataset `read_csv fullCsv` parses to. -/
def fullDf : DataFrame :=
  ⟨[⟨"CategoriaPrompt", ColData.strs ["criativo", "tecnico", "criativo"]⟩,
    ⟨"Coerencia (Humana)", ColData.nums [4, 3, 5]⟩,
    ⟨"Relevancia (Humana)", ColData.nums [5, 4, 5]⟩,
    ⟨"Profundidade (Humana)", ColData.nums [3, 2, 4]⟩,
    ⟨"Consciencia (Humana)", ColData.nums [4, 3, 4]⟩,
    ⟨"BLEU", ColData.nums [31, 28, 35]⟩,
    ⟨"ROUGE", ColData.nums [42, 39, 47]⟩,
    ⟨"Perplexidade", ColData.nums [12, 15, 10]⟩,
    ⟨"Diversidade", ColData.nums [7, 6, 8]⟩,
    ⟨"Originalidade", ColData.nums [8, 7, 9]⟩]⟩

/-- `fullDf` with the single column `Perplexidade` removed. -/
def dfNoPerp : DataFrame :=
  ⟨[⟨"CategoriaPrompt", ColData.strs ["criativo", "tecnico", "criativo"]⟩,
    ⟨"Coerencia (Humana)", ColData.nums [4, 3, 5]⟩,
    ⟨"Relevancia (Humana)", ColData.nums [5, 4, 5]⟩,
    ⟨"Profundidade (Humana)", ColData.nums [3, 2, 4]⟩,
    ⟨"Consciencia (Humana)", ColData.nums [4, 3, 4]⟩,
    ⟨"BLEU", ColData.nums [31, 28, 35]⟩,
    ⟨"ROUGE", ColData.nums [42, 39, 47]⟩,
    ⟨"Diversidade", ColData.nums [7, 6, 8]⟩,
    ⟨"Originalidade", ColData.nums [8, 7, 9]⟩]⟩

/-- `fullDf` with the single column `BLEU` removed. -/
def dfNoBleu : DataFrame :=
  ⟨[⟨"CategoriaPrompt", ColData.strs ["criativo", "tecnico", "criativo"]⟩,
    ⟨"Coerencia (Humana)", ColData.nums [4, 3, 5]⟩,
    ⟨"Relevancia (Humana)", ColData.nums [5, 4, 5]⟩,
    ⟨"Profundidade (Humana)", ColData.nums [3, 2, 4]⟩,
    ⟨"Consciencia (Humana)", ColData.nums [4, 3, 4]⟩,
    ⟨"ROUGE", ColData.nums [42, 39, 47]⟩,
    ⟨"Perplexidade", ColData.nums [12, 15, 10]⟩,
    ⟨"Diversidade", ColData.nums [7, 6, 8]⟩,
    ⟨"Originalidade", ColData.nums [8, 7, 9]⟩]⟩

/-- A dataset with only the `Perplexidade` column. -/
def dfOnlyPerp : DataFrame := ⟨[⟨"Perplexidade", ColData.nums [12, 15]⟩]⟩

/-- A dataset with only the two scatter columns `BLEU` and `ROUGE`. -/
def dfBleuRouge : DataFrame :=
  ⟨[⟨"BLEU", ColData.nums [31, 28]⟩, ⟨"ROUGE", ColData.nums [42, 39]⟩]⟩

/-- A dataset with a single numeric column whose name matches no expected
column: every guard fails, while the correlation heatmap still has a
non-empty (1×1) matrix to render. -/
def dfOnlyFoo : DataFrame := ⟨[⟨"foo", ColData.nums [1, 2]⟩]⟩

/-- A dataset with only a `CategoriaPrompt` column. -/
def dfOnlyCat : DataFrame := ⟨[⟨"CategoriaPrompt", ColData.strs ["x", "y", "x"]⟩]⟩

/-- A mixed dataset: one string column and two numeric columns. -/
def dfMixed : DataFrame :=
  ⟨[⟨"nome", ColData.strs ["a", "b"]⟩, ⟨"nota", ColData.nums [1, 2]⟩,
    ⟨"peso", ColData.nums [3, 4]⟩]⟩

/-! ## Helper lemmas: observing effect lists -/

theorem writtenImages_append (a b : List Effect) :
    writtenImages (a ++ b) = writtenImages a ++ writtenImages b :=
  List.filterMap_append a b _

theorem diagnostics_append (a b : List Effect) :
    diagnostics (a ++ b) = diagnostics a ++ diagnostics b :=
  List.filterMap_append a b _

theorem writtenSpecs_append (a b : List Effect) :
    writtenSpecs (a ++ b) = writtenSpecs a ++ writtenSpecs b :=
  List.filterMap_append a b _

theorem images_step1 (df : DataFrame) :
    writtenImages (step1 df) = (table1.filter (allPresent df)).map (fun a => jp GRAPHPATH a.filename) := by
  by_cases h1 : hasCol df "Coerencia (Humana)" = true <;>
  by_cases h2 : hasCol df "Relevancia (Humana)" = true <;>
  by_cases h3 : hasCol df "Profundidade (Humana)" = true <;>
  by_cases h4 : hasCol df "Consciencia (Humana)" = true <;>
    simp [step1, table1, humanCols, h1, h2, h3, h4, writtenImages, generate_histogram,
      save_fig, create_figure, allPresent]

theorem images_step2 (df : DataFrame) :
    writtenImages (step2 df) = (table2.filter (allPresent df)).map (fun a => jp GRAPHPATH a.filename) := by
  by_cases h0 : hasCol df "CategoriaPrompt" = true <;>
  by_cases h1 : hasCol df "Coerencia (Humana)" = true <;>
  by_cases h2 : hasCol df "Relevancia (Humana)" = true <;>
  by_cases h3 : hasCol df "Profundidade (Humana)" = true <;>
  by_cases h4 : hasCol df "Consciencia (Humana)" = true <;>
    simp [step2, table2, humanCols, h0, h1, h2, h3, h4, writtenImages, generate_boxplot,
      save_fig, create_figure, allPresent]

theorem images_step3 (df : DataFrame) :
    writtenImages (step3 df) = (table3.filter (allPresent df)).map (fun a => jp GRAPHPATH a.filename) := by
  by_cases h1 : hasCol df "BLEU" = true <;> by_cases h2 : hasCol df "ROUGE" = true <;>
    simp [step3, table3, h1, h2, writtenImages, generate_scatterplot, save_fig, create_figure,
      allPresent]

theorem images_step4 (df : DataFrame) :
    writtenImages (step4 df) = (table4.filter (allPresent df)).map (fun a => jp GRAPHPATH a.filename) := by
  by_cases h1 : hasCol df "Perplexidade" = true <;>
    simp [step4, table4, h1, writtenImages, generate_histogram, save_fig, create_figure,
      allPresent]

theorem images_step5 (df : DataFrame) :
    writtenImages (step5 df) = (table5.filter (allPresent df)).map (fun a => jp GRAPHPATH a.filename) := by
  by_cases h1 : hasCol df "Perplexidade" = true <;>
  by_cases h2 : hasCol df "CategoriaPrompt" = true <;>
    simp [step5, table5, h1, h2, writtenImages, generate_violinplot, save_fig, create_figure,
      allPresent]

theorem images_step6 (df : DataFrame) :
    writtenImages (step6 df) = (table6.filter (allPresent df)).map (fun a => jp GRAPHPATH a.filename) := by
  by_cases h1 : hasCol df "Perplexidade" = true <;>
  by_cases h2 : hasCol df "Coerencia (Humana)" = true <;>
    simp [step6, table6, h1, h2, writtenImages, generate_scatterplot, save_fig, create_figure,
      allPresent]

theorem images_step7 (df : DataFrame) :
    writtenImages (step7 df) = (table7.filter (allPresent df)).map (fun a => jp GRAPHPATH a.filename) := by
  simp [step7, table7, writtenImages, generate_heatmap, save_fig, create_figure, allPresent]

theorem images_step8 (df : DataFrame) :
    writtenImages (step8 df) = (table8.filter (allPresent df)).map (fun a => jp GRAPHPATH a.filename) := by
  by_cases h1 : hasCol df "Diversidade" = true <;>
  by_cases h2 : hasCol df "Originalidade" = true <;>
    simp [step8, table8, h1, h2, writtenImages, generate_scatterplot, save_fig, create_figure,
      allPresent]

theorem images_step9 (df : DataFrame) :
    writtenImages (step9 df) = (table9.filter (allPresent df)).map (fun a => jp GRAPHPATH a.filename) := by
  by_cases h1 : hasCol df "Diversidade" = true <;>
  by_cases h2 : hasCol df "CategoriaPrompt" = true <;>
    simp [step9, table9, h1, h2, writtenImages, generate_boxplot, save_fig, create_figure,
      allPresent]

theorem images_step10 (df : DataFrame) :
    writtenImages (step10 df) = (table10.filter (allPresent df)).map (fun a => jp GRAPHPATH a.filename) := by
  by_cases h1 : hasCol df "Originalidade" = true <;>
  by_cases h2 : hasCol df "CategoriaPrompt" = true <;>
    simp [step10, table10, h1, h2, writtenImages, generate_boxplot, save_fig, create_figure,
      allPresent]

theorem images_step11 (df : DataFrame) :
    writtenImages (step11 df) = (table11.filter (allPresent df)).map (fun a => jp GRAPHPATH a.filename) := by
  by_cases h1 : hasCol df "Profundidade (Humana)" = true <;>
  by_cases h2 : hasCol df "Consciencia (Humana)" = true <;>
    simp [step11, table11, h1, h2, writtenImages, generate_scatterplot, save_fig, create_figure,
      allPresent]

/-- Master image lemma: the analysis stage writes exactly the artifacts whose
guards pass, in table order. -/
theorem images_analysis (df : DataFrame) :
    writtenImages (analysisStage df) =
      (artifactTable.filter (allPresent df)).map (fun a => jp GRAPHPATH a.filename) := by
  simp only [analysisStage, artifactTable, writtenImages_append, List.filter_append,
    List.map_append, images_step1, images_step2, images_step3, images_step4, images_step5,
    images_step6, images_step7, images_step8, images_step9, images_step10, images_step11]

theorem diagnostics_step1 (df : DataFrame) :
    diagnostics (step1 df) = (table1.filter (fun a => !(allPresent df a))).map (fun a => a.diag) := by
  by_cases h1 : hasCol df "Coerencia (Humana)" = true <;>
  by_cases h2 : hasCol df "Relevancia (Humana)" = true <;>
  by_cases h3 : hasCol df "Profundidade (Humana)" = true <;>
  by_cases h4 : hasCol df "Consciencia (Humana)" = true <;>
    simp [step1, table1, humanCols, h1, h2, h3, h4, diagnostics, generate_histogram,
      save_fig, create_figure, allPresent]

theorem diagnostics_step2 (df : DataFrame) :
    diagnostics (step2 df) = (table2.filter (fun a => !(allPresent df a))).map (fun a => a.diag) := by
  by_cases h0 : hasCol df "CategoriaPrompt" = true <;>
  by_cases h1 : hasCol df "Coerencia (Humana)" = true <;>
  by_cases h2 : hasCol df "Relevancia (Humana)" = true <;>
  by_cases h3 : hasCol df "Profundidade (Humana)" = true <;>
  by_cases h4 : hasCol df "Consciencia (Humana)" = true <;>
    simp [step2, table2, humanCols, h0, h1, h2, h3, h4, diagnostics, generate_boxplot,
      save_fig, create_figure, allPresent]

theorem diagnostics_step3 (df : DataFrame) :
    diagnostics (step3 df) = (table3.filter (fun a => !(allPresent df a))).map (fun a => a.diag) := by
  by_cases h1 : hasCol df "BLEU" = true <;> by_cases h2 : hasCol df "ROUGE" = true <;>
    simp [step3, table3, h1, h2, diagnostics, generate_scatterplot, save_fig, create_figure,
      allPresent]

theorem diagnostics_step4 (df : DataFrame) :
    diagnostics (step4 df) = (table4.filter (fun a => !(allPresent df a))).map (fun a => a.diag) := by
  by_cases h1 : hasCol df "Perplexidade" = true <;>
    simp [step4, table4, h1, diagnostics, generate_histogram, save_fig, create_figure, allPresent]

theorem diagnostics_step5 (df : DataFrame) :
    diagnostics (step5 df) = (table5.filter (fun a => !(allPresent df a))).map (fun a => a.diag) := by
  by_cases h1 : hasCol df "Perplexidade" = true <;>
  by_cases h2 : hasCol df "CategoriaPrompt" = true <;>
    simp [step5, table5, h1, h2, diagnostics, generate_violinplot, save_fig, create_figure,
      allPresent]

theorem diagnostics_step6 (df : DataFrame) :
    diagnostics (step6 df) = (table6.filter (fun a => !(allPresent df a))).map (fun a => a.diag) := by
  by_cases h1 : hasCol df "Perplexidade" = true <;>
  by_cases h2 : hasCol df "Coerencia (Humana)" = true <;>
    simp [step6, table6, h1, h2, diagnostics, generate_scatterplot, save_fig, create_figure,
      allPresent]

theorem diagnostics_step7 (df : DataFrame) :
    diagnostics (step7 df) = (table7.filter (fun a => !(allPresent df a))).map (fun a => a.diag) := by
  simp [step7, table7, diagnostics, generate_heatmap, save_fig, create_figure, allPresent]

theorem diagnostics_step8 (df : DataFrame) :
    diagnostics (step8 df) = (table8.filter (fun a => !(allPresent df a))).map (fun a => a.diag) := by
  by_cases h1 : hasCol df "Diversidade" = true <;>
  by_cases h2 : hasCol df "Originalidade" = true <;>
    simp [step8, table8, h1, h2, diagnostics, generate_scatterplot, save_fig, create_figure,
      allPresent]

theorem diagnostics_step9 (df : DataFrame) :
    diagnostics (step9 df) = (table9.filter (fun a => !(allPresent df a))).map (fun a => a.diag) := by
  by_cases h1 : hasCol df "Diversidade" = true <;>
  by_cases h2 : hasCol df "CategoriaPrompt" = true <;>
    simp [step9, table9, h1, h2, diagnostics, generate_boxplot, save_fig, create_figure,
      allPresent]

theorem diagnostics_step10 (df : DataFrame) :
    diagnostics (step10 df) = (table10.filter (fun a => !(allPresent df a))).map (fun a => a.diag) := by
  by_cases h1 : hasCol df "Originalidade" = true <;>
  by_cases h2 : hasCol df "CategoriaPrompt" = true <;>
    simp [step10, table10, h1, h2, diagnostics, generate_boxplot, save_fig, create_figure,
      allPresent]

theorem diagnostics_step11 (df : DataFrame) :
    diagnostics (step11 df) = (table11.filter (fun a => !(allPresent df a))).map (fun a => a.diag) := by
  by_cases h1 : hasCol df "Profundidade (Humana)" = true <;>
  by_cases h2 : hasCol df "Consciencia (Humana)" = true <;>
    simp [step11, table11, h1, h2, diagnostics, generate_scatterplot, save_fig, create_figure,
      allPresent]

/-- Master diagnostic lemma: the analysis stage prints exactly the diagnostics of
the artifacts whose guards fail, in table order. -/
theorem diagnostics_analysis (df : DataFrame) :
    diagnostics (analysisStage df) =
      (artifactTable.filter (fun a => !(allPresent df a))).map (fun a => a.diag) := by
  simp only [analysisStage, artifactTable, diagnostics_append, List.filter_append,
    List.map_append, diagnostics_step1, diagnostics_step2, diagnostics_step3, diagnostics_step4,
    diagnostics_step5, diagnostics_step6, diagnostics_step7, diagnostics_step8, diagnostics_step9,
    diagnostics_step10, diagnostics_step11]

theorem specs_step1 (df : DataFrame) : ∀ s ∈ writtenSpecs (step1 df), s.data = df := by
  by_cases h1 : hasCol df "Coerencia (Humana)" = true <;>
  by_cases h2 : hasCol df "Relevancia (Humana)" = true <;>
  by_cases h3 : hasCol df "Profundidade (Humana)" = true <;>
  by_cases h4 : hasCol df "Consciencia (Humana)" = true <;>
    simp [step1, humanCols, h1, h2, h3, h4, writtenSpecs, generate_histogram, save_fig,
      create_figure]

theorem specs_step2 (df : DataFrame) : ∀ s ∈ writtenSpecs (step2 df), s.data = df := by
  by_cases h0 : hasCol df "CategoriaPrompt" = true <;>
  by_cases h1 : hasCol df "Coerencia (Humana)" = true <;>
  by_cases h2 : hasCol df "Relevancia (Humana)" = true <;>
  by_cases h3 : hasCol df "Profundidade (Humana)" = true <;>
  by_cases h4 : hasCol df "Consciencia (Humana)" = true <;>
    simp [step2, humanCols, h0, h1, h2, h3, h4, writtenSpecs, generate_boxplot, save_fig,
      create_figure]

theorem specs_step3 (df : DataFrame) : ∀ s ∈ writtenSpecs (step3 df), s.data = df := by
  by_cases h1 : hasCol df "BLEU" = true <;> by_cases h2 : hasCol df "ROUGE" = true <;>
    simp [step3, h1, h2, writtenSpecs, generate_scatterplot, save_fig, create_figure]

theorem specs_step4 (df : DataFrame) : ∀ s ∈ writtenSpecs (step4 df), s.data = df := by
  by_cases h1 : hasCol df "Perplexidade" = true <;>
    simp [step4, h1, writtenSpecs, generate_histogram, save_fig, create_figure]

theorem specs_step5 (df : DataFrame) : ∀ s ∈ writtenSpecs (step5 df), s.data = df := by
  by_cases h1 : hasCol df "Perplexidade" = true <;>
  by_cases h2 : hasCol df "CategoriaPrompt" = true <;>
    simp [step5, h1, h2, writtenSpecs, generate_violinplot, save_fig, create_figure]

theorem specs_step6 (df : DataFrame) : ∀ s ∈ writtenSpecs (step6 df), s.data = df := by
  by_cases h1 : hasCol df "Perplexidade" = true <;>
  by_cases h2 : hasCol df "Coerencia (Humana)" = true <;>
    simp [step6, h1, h2, writtenSpecs, generate_scatterplot, save_fig, create_figure]

theorem specs_step7 (df : DataFrame) : ∀ s ∈ writtenSpecs (step7 df), s.data = df := by
  simp [step7, writtenSpecs, generate_heatmap, save_fig, create_figure]

theorem specs_step8 (df : DataFrame) : ∀ s ∈ writtenSpecs (step8 df), s.data = df := by
  by_cases h1 : hasCol df "Diversidade" = true <;>
  by_cases h2 : hasCol df "Originalidade" = true <;>
    simp [step8, h1, h2, writtenSpecs, generate_scatterplot, save_fig, create_figure]

theorem specs_step9 (df : DataFrame) : ∀ s ∈ writtenSpecs (step9 df), s.data = df := by
  by_cases h1 : hasCol df "Diversidade" = true <;>
  by_cases h2 : hasCol df "CategoriaPrompt" = true <;>
    simp [step9, h1, h2, writtenSpecs, generate_boxplot, save_fig, create_figure]

theorem specs_step10 (df : DataFrame) : ∀ s ∈ writtenSpecs (step10 df), s.data = df := by
  by_cases h1 : hasCol df "Originalidade" = true <;>
  by_cases h2 : hasCol df "CategoriaPrompt" = true <;>
    simp [step10, h1, h2, writtenSpecs, generate_boxplot, save_fig, create_figure]

theorem specs_step11 (df : DataFrame) : ∀ s ∈ writtenSpecs (step11 df), s.data = df := by
  by_cases h1 : hasCol df "Profundidade (Humana)" = true <;>
  by_cases h2 : hasCol df "Consciencia (Humana)" = true <;>
    simp [step11, h1, h2, writtenSpecs, generate_scatterplot, save_fig, create_figure]

/-- Master frame lemma: every chart written by the analysis stage renders from the
dataset the stage was given — no step passes any other data view to a generator. -/
theorem specs_analysis (df : DataFrame) : ∀ s ∈ writtenSpecs (analysisStage df), s.data = df := by
  intro s hs
  simp only [analysisStage, writtenSpecs_append, List.mem_append] at hs
  rcases hs with ((((((((((h | h) | h) | h) | h) | h) | h) | h) | h) | h) | h)
  · exact specs_step1 df s h
  · exact specs_step2 df s h
  · exact specs_step3 df s h
  · exact specs_step4 df s h
  · exact specs_step5 df s h
  · exact specs_step6 df s h
  · exact specs_step7 df s h
  · exact specs_step8 df s h
  · exact specs_step9 df s h
  · exact specs_step10 df s h
  · exact specs_step11 df s h

theorem hasCol_setCol_self (df : DataFrame) (n : String) (d : ColData) :
    hasCol (setCol df n d) n = true := by
  unfold hasCol setCol
  by_cases hn : (df.cols.any fun col => col.name == n) = true
  · rw [if_pos hn]
    rw [List.any_eq_true] at hn ⊢
    obtain ⟨col, hcol, hname⟩ := hn
    refine ⟨⟨n, d⟩, ?_, by simp⟩
    rw [List.mem_map]
    exact ⟨col, hcol, by rw [if_pos hname]⟩
  · rw [if_neg hn]
    rw [List.any_eq_true]
    exact ⟨⟨n, d⟩, List.mem_append_right _ (List.mem_singleton.2 rfl), by simp⟩

theorem hasCol_setCol_ne (df : DataFrame) (n c : String) (d : ColData) (hne : c ≠ n) :
    hasCol (setCol df n d) c = hasCol df c := by
  unfold hasCol setCol
  by_cases hn : (df.cols.any fun col => col.name == n) = true
  · rw [if_pos hn]
    rw [Bool.eq_iff_iff]
    simp only [List.any_eq_true, List.mem_map, beq_iff_eq]
    constructor
    · rintro ⟨mcol, ⟨col, hcol, hmap⟩, hname⟩
      by_cases he : col.name = n
      · rw [if_pos he] at hmap
        rw [← hmap] at hname
        exact absurd hname.symm hne
      · rw [if_neg he] at hmap
        exact ⟨col, hcol, by rw [hmap]; exact hname⟩
    · rintro ⟨col, hcol, hname⟩
      have he : ¬(col.name = n) := fun h => hne (hname.symm.trans h)
      exact ⟨col, ⟨col, hcol, by rw [if_neg he]⟩, hname⟩
  · rw [if_neg hn]
    have hfalse : ((Column.mk n d).name == c) = false := by
      simp only [beq_eq_false_iff_ne]
      exact fun h => hne h.symm
    simp [List.any_append, hfalse]

theorem setCol_of_not_has (df : DataFrame) (n : String) (d : ColData)
    (h : hasCol df n = false) : setCol df n d = ⟨df.cols ++ [⟨n, d⟩]⟩ := by
  unfold setCol
  unfold hasCol at h
  rw [if_neg (by rw [h]; exact Bool.false_ne_true)]

/-- `in df.columns` agrees with `df[name]` succeeding. -/
theorem hasCol_iff_getCol (df : DataFrame) (n : String) :
    hasCol df n = true ↔ (getCol df n).isSome := by
  unfold hasCol getCol
  rw [List.any_eq_true, List.find?_isSome]

/-- The encoding stage leaves the presence of every other-named column unchanged. -/
theorem hasCol_encodeStage_ne (df : DataFrame) (c : String)
    (hne : c ≠ "CategoriaPrompt_encoded") :
    hasCol (encodeStage df).1 c = hasCol df c := by
  unfold encodeStage
  cases hg : getCol df "CategoriaPrompt" with
  | none => rfl
  | some col => exact hasCol_setCol_ne df _ c _ hne

/-- After the encoding stage, `CategoriaPrompt_encoded` is present exactly when it
already was, or `CategoriaPrompt` was present (and hence got encoded). -/
theorem hasCol_encodeStage_encoded (df : DataFrame) :
    hasCol (encodeStage df).1 "CategoriaPrompt_encoded"
      = (hasCol df "CategoriaPrompt_encoded" || hasCol df "CategoriaPrompt") := by
  unfold encodeStage
  cases hg : getCol df "CategoriaPrompt" with
  | none =>
    have hcp : hasCol df "CategoriaPrompt" = false := by
      rw [← Bool.not_eq_true, hasCol_iff_getCol, hg]
      simp
    rw [hcp, Bool.or_false]
  | some col =>
    have hcp : hasCol df "CategoriaPrompt" = true := by
      rw [hasCol_iff_getCol, hg]
      rfl
    rw [hcp, Bool.or_true]
    exact hasCol_setCol_self df _ _

/-! ## Helper lemmas: the label encoder -/

theorem charToNat_inj {a b : Char} (h : a.toNat = b.toNat) : a = b := by
  exact_mod_cast Char.ofNat_toNat a ▸ Char.ofNat_toNat b ▸ congrArg Char.ofNat h

theorem lexLe_total (as bs : List Char) : lexLe as bs = true ∨ lexLe bs as = true := by
  induction as generalizing bs with
  | nil => exact Or.inl rfl
  | cons a as ih =>
    cases bs with
    | nil => exact Or.inr rfl
    | cons b bs =>
      by_cases hab : a = b
      · subst hab
        rcases ih bs with h | h
        · exact Or.inl (by simp [lexLe, h])
        · exact Or.inr (by simp [lexLe, h])
      · have hba : ¬(b = a) := fun h => hab h.symm
        rcases Nat.lt_or_ge a.toNat b.toNat with h | h
        · exact Or.inl (by simp [lexLe, hab, h])
        · have hne : b.toNat ≠ a.toNat := fun hEq => hab (charToNat_inj hEq.symm)
          refine Or.inr (by simp [lexLe, hba]; omega)

theorem lexLe_trans {as bs cs : List Char} (h1 : lexLe as bs = true) (h2 : lexLe bs cs = true) :
    lexLe as cs = true := by
  induction as generalizing bs cs with
  | nil => rfl
  | cons a as ih =>
    cases bs with
    | nil => simp [lexLe] at h1
    | cons b bs =>
      cases cs with
      | nil => simp [lexLe] at h2
      | cons c cs =>
        by_cases hab : a = b <;> by_cases hbc : b = c
        · subst hab
          subst hbc
          simp only [lexLe, beq_self_eq_true, if_true] at h1 h2 ⊢
          exact ih h1 h2
        · subst hab
          simp only [lexLe, beq_self_eq_true, if_true] at h1
          simp [lexLe, hbc] at h2 ⊢
          exact h2
        · subst hbc
          simp [lexLe, hab] at h1 ⊢
          exact h1
        · simp [lexLe, hab] at h1
          simp [lexLe, hbc] at h2
          have hlt : a.toNat < c.toNat := Nat.lt_trans h1 h2
          have hac : ¬(a = c) := fun hEq => Nat.lt_irrefl _ (hEq ▸ hlt)
          simp [lexLe, hac, hlt]

theorem lexLe_antisymm {as bs : List Char} (h1 : lexLe as bs = true) (h2 : lexLe bs as = true) :
    as = bs := by
  induction as generalizing bs with
  | nil =>
    cases bs with
    | nil => rfl
    | cons b bs => simp [lexLe] at h2
  | cons a as ih =>
    cases bs with
    | nil => simp [lexLe] at h1
    | cons b bs =>
      by_cases hab : a = b
      · subst hab
        simp only [lexLe, beq_self_eq_true, if_true] at h1 h2
        rw [ih h1 h2]
      · have hba : ¬(b = a) := fun h => hab h.symm
        simp [lexLe, hab] at h1
        simp [lexLe, hba] at h2
        omega

theorem strLe_total (a b : String) : strLe a b = true ∨ strLe b a = true :=
  lexLe_total a.data b.data

theorem strLe_trans {a b c : String} (h1 : strLe a b = true) (h2 : strLe b c = true) :
    strLe a c = true :=
  lexLe_trans h1 h2

theorem strLe_antisymm {a b : String} (h1 : strLe a b = true) (h2 : strLe b a = true) :
    a = b := by
  cases a with
  | mk da =>
    cases b with
    | mk db => exact congrArg String.mk (lexLe_antisymm h1 h2)

theorem labelClasses_perm_dedup {α : Type} [DecidableEq α] (le : α → α → Bool) (xs : List α) :
    List.Perm (labelClasses le xs) xs.dedup :=
  List.perm_insertionSort _ _

theorem labelClasses_nodup {α : Type} [DecidableEq α] (le : α → α → Bool) (xs : List α) :
    (labelClasses le xs).Nodup :=
  ((labelClasses_perm_dedup le xs).nodup_iff).2 (List.nodup_dedup xs)

theorem mem_labelClasses {α : Type} [DecidableEq α] (le : α → α → Bool) (xs : List α) (v : α) :
    v ∈ labelClasses le xs ↔ v ∈ xs := by
  rw [(labelClasses_perm_dedup le xs).mem_iff, List.mem_dedup]

theorem labelClasses_toFinset {α : Type} [DecidableEq α] (le : α → α → Bool) (xs : List α) :
    (labelClasses le xs).toFinset = xs.toFinset := by
  ext a
  simp [List.mem_toFinset, mem_labelClasses]

/-- The encoder is injective on the values it sees: distinct codes for distinct values. -/
theorem labelEncode_card {α : Type} [DecidableEq α] (le : α → α → Bool) (xs : List α) :
    (labelEncode le xs).toFinset.card = xs.toFinset.card := by
  unfold labelEncode
  have hmap : (xs.map (fun v => (labelClasses le xs).indexOf v)).toFinset
      = xs.toFinset.image (fun v => (labelClasses le xs).indexOf v) := by
    ext b
    simp [List.mem_toFinset, List.mem_map, Finset.mem_image]
  rw [hmap]
  apply Finset.card_image_of_injOn
  intro a ha b hb h
  have ha' : a ∈ labelClasses le xs := (mem_labelClasses le xs a).2 (by simpa using ha)
  have hb' : b ∈ labelClasses le xs := (mem_labelClasses le xs b).2 (by simpa using hb)
  exact (List.indexOf_inj ha' hb').1 h

/-- Sortedness of the encoder classes for the string order. -/
theorem labelClasses_sorted_str (xs : List String) :
    List.Sorted (fun a b => strLe a b = true) (labelClasses strLe xs) := by
  haveI : IsTotal String (fun a b => strLe a b = true) := ⟨strLe_total⟩
  haveI : IsTrans String (fun a b => strLe a b = true) := ⟨fun _ _ _ => strLe_trans⟩
  exact List.sorted_insertionSort _ _

/-- The i-th class (in ascending order) receives code i. -/
theorem labelClasses_indexOf_get {α : Type} [DecidableEq α] (le : α → α → Bool) (xs : List α)
    (i : Fin (labelClasses le xs).length) :
    (labelClasses le xs).indexOf ((labelClasses le xs).get i) = i := by
  have hmem : (labelClasses le xs).get i ∈ labelClasses le xs := by
    exact List.get_mem _ _ i.2
  have hlt : (labelClasses le xs).indexOf ((labelClasses le xs).get i)
      < (labelClasses le xs).length := List.indexOf_lt_length.2 hmem
  have hget := List.indexOf_get (a := (labelClasses le xs).get i) (l := labelClasses le xs) hlt
  have := (labelClasses_nodup le xs).get_inj_iff.1 hget
  exact congrArg Fin.val this

/-- The class list depends only on the multiset of values (determinism across runs). -/
theorem labelClasses_perm_invariant (xs ys : List String) (h : List.Perm xs ys) :
    labelClasses strLe xs = labelClasses strLe ys := by
  haveI : IsAntisymm String (fun a b => strLe a b = true) := ⟨fun _ _ => strLe_antisymm⟩
  apply List.eq_of_perm_of_sorted _ (labelClasses_sorted_str xs) (labelClasses_sorted_str ys)
  exact ((labelClasses_perm_dedup strLe xs).trans h.dedup).trans
    (labelClasses_perm_dedup strLe ys).symm

/-! ## Helper lemmas: paths and the artifact table -/

theorem jp_right_inj {g a b : String} (h : jp g a = jp g b) : a = b := by
  unfold jp at h
  have hd : (g ++ "/" ++ a).data = (g ++ "/" ++ b).data := congrArg String.data h
  rw [String.data_append, String.data_append] at hd
  have hd2 := List.append_cancel_left hd
  cases a with
  | mk da =>
    cases b with
    | mk db => exact congrArg String.mk hd2

theorem artifactTable_filename_inj :
    ∀ a ∈ artifactTable, ∀ b ∈ artifactTable, a.filename = b.filename → a = b := by decide

theorem artifactTable_required_facts :
    ∀ a ∈ artifactTable, ∀ c ∈ a.required,
      c ∈ expectedColumns ∧ c ≠ "CategoriaPrompt_encoded" := by decide

theorem expectedColumns_ne_encoded : ∀ c ∈ expectedColumns, c ≠ "CategoriaPrompt_encoded" := by
  decide

theorem artifactTable_paths_under :
    ∀ a ∈ artifactTable, underDir GRAPHPATH (jp GRAPHPATH a.filename) = true ∧
      underDir SUMMARYPATH (jp GRAPHPATH a.filename) = false := by decide

theorem artifactTable_heatmap_ungated :
    ∀ a ∈ artifactTable, a.filename = "7_heatmap.png" → a.required = [] := by decide

/-! ## Helper lemmas: the stages of a run -/

theorem images_encodeStage_snd (df : DataFrame) : writtenImages (encodeStage df).2 = [] := by
  unfold encodeStage
  cases getCol df "CategoriaPrompt" <;> rfl

theorem specs_encodeStage_snd (df : DataFrame) : writtenSpecs (encodeStage df).2 = [] := by
  unfold encodeStage
  cases getCol df "CategoriaPrompt" <;> rfl

/-- The image artifacts of everything after a successful load. -/
theorem images_pipeline (df : DataFrame) :
    writtenImages (pipelineAfterLoad df) =
      (artifactTable.filter (allPresent (encodeStage df).1)).map
        (fun a => jp GRAPHPATH a.filename) := by
  unfold pipelineAfterLoad
  rw [writtenImages_append, writtenImages_append, images_encodeStage_snd, images_analysis]
  simp [writtenImages]

/-- Any failing acquisition returns the no-dataset signal plus a single diagnostic. -/
theorem load_fail_cases (f : FetchOutcome) (h : acquisitionFails f = true) :
    ∃ m, load_data_from_url f
      = (none, [Effect.message ("Erro ao carregar dados da URL: " ++ m)]) := by
  cases f with
  | netError msg => exact ⟨msg, rfl⟩
  | response status body =>
    by_cases hs : raisesForStatus status = true
    · exact ⟨toString status ++ " Error for url: " ++ DATASET_URL, by simp [load_data_from_url, hs]⟩
    · have hs' : raisesForStatus status = false := by simpa using hs
      simp only [acquisitionFails, hs', Bool.false_or] at h
      cases body with
      | none => exact ⟨"invalid utf-8 byte sequence", by simp [load_data_from_url, hs']⟩
      | some content =>
        simp only [Option.isNone_iff_eq_none] at h
        exact ⟨"Error tokenizing data", by simp [load_data_from_url, hs', h]⟩

/-- A load whose first component succeeded is exactly `(some df, [])`. -/
theorem load_success_shape (f : FetchOutcome) (df : DataFrame)
    (h : (load_data_from_url f).1 = some df) : load_data_from_url f = (some df, []) := by
  cases f with
  | netError msg => simp [load_data_from_url] at h
  | response status body =>
    by_cases hs : raisesForStatus status = true
    · simp [load_data_from_url, hs] at h
    · have hs' : raisesForStatus status = false := by simpa using hs
      cases body with
      | none => simp [load_data_from_url, hs'] at h
      | some content =>
        cases hrc : read_csv content with
        | none => simp [load_data_from_url, hs', hrc] at h
        | some df2 =>
          simp only [load_data_from_url, hs', Bool.false_eq_true, if_false, hrc] at h ⊢
          simp at h
          rw [h]

/-- Core gating fact: the path of an artifact appears among the written images
exactly when its guard passes, and a failing guard prints its diagnostic. -/
theorem gating_helper (df : DataFrame) (a : ArtifactSpec) (ha : a ∈ artifactTable) :
    (jp GRAPHPATH a.filename ∈ writtenImages (analysisStage df) ↔ allPresent df a = true) ∧
    (allPresent df a = false → a.diag ∈ diagnostics (analysisStage df)) := by
  rw [images_analysis, diagnostics_analysis]
  constructor
  · constructor
    · intro hmem
      rw [List.mem_map] at hmem
      obtain ⟨b, hbf, hpath⟩ := hmem
      rw [List.mem_filter] at hbf
      have hfn : b.filename = a.filename := jp_right_inj hpath
      have hab : b = a := artifactTable_filename_inj b hbf.1 a ha hfn
      rw [← hab]
      exact hbf.2
    · intro hp
      rw [List.mem_map]
      exact ⟨a, List.mem_filter.2 ⟨ha, hp⟩, rfl⟩
  · intro hp
    rw [List.mem_map]
    refine ⟨a, List.mem_filter.2 ⟨ha, ?_⟩, rfl⟩
    rw [hp]
    rfl

/-- When every expected column is present, every guard passes after encoding. -/
theorem allPresent_encode_of_all (df : DataFrame)
    (hcols : ∀ c ∈ expectedColumns, hasCol df c = true) :
    ∀ a ∈ artifactTable, allPresent (encodeStage df).1 a = true := by
  intro a ha
  rw [allPresent, List.all_eq_true]
  intro c hc
  obtain ⟨hce, hcne⟩ := artifactTable_required_facts a ha c hc
  rw [hasCol_encodeStage_ne df c hcne]
  exact hcols c hce

/-- When exactly the column `m` is missing, a guard passes iff it does not check `m`. -/
theorem allPresent_encode_of_missing (df : DataFrame) (m : String)
    (hm : m ∈ expectedColumns) (hmiss : hasCol df m = false)
    (hrest : ∀ c ∈ expectedColumns, c ≠ m → hasCol df c = true) :
    ∀ a ∈ artifactTable, allPresent (encodeStage df).1 a = !(a.required.contains m) := by
  intro a ha
  cases hcm : a.required.contains m with
  | true =>
    have hmem : m ∈ a.required := by simpa using hcm
    simp only [Bool.not_true]
    rw [← Bool.not_eq_true]
    intro hall
    rw [allPresent, List.all_eq_true] at hall
    have hfail := hall m hmem
    rw [hasCol_encodeStage_ne df m (expectedColumns_ne_encoded m hm), hmiss] at hfail
    exact Bool.false_ne_true hfail
  | false =>
    have hmem : ¬(m ∈ a.required) := by simpa using hcm
    simp only [Bool.not_false]
    rw [allPresent, List.all_eq_true]
    intro c hc
    obtain ⟨hce, hcne⟩ := artifactTable_required_facts a ha c hc
    rw [hasCol_encodeStage_ne df c hcne]
    exact hrest c hce (fun hEq => hmem (hEq ▸ hc))

theorem find_map_set (cols : List Column) (n : String) (d : ColData)
    (h : cols.any (fun col => col.name == n) = true) :
    (cols.map (fun col => if col.name == n then (⟨n, d⟩ : Column) else col)).find?
        (fun col => col.name == n) = some ⟨n, d⟩ := by
  induction cols with
  | nil => simp at h
  | cons hd tl ih =>
    by_cases hh : (hd.name == n) = true
    · simp only [List.map_cons]
      rw [if_pos hh]
      simp [List.find?]
    · simp only [List.any_cons, Bool.or_eq_true] at h
      rcases h with hcase | hcase
      · exact absurd hcase hh
      · simp only [List.map_cons]
        rw [if_neg hh]
        rw [List.find?_cons_of_neg _ (by simpa using hh)]
        exact ih hcase

theorem getCol_setCol (df : DataFrame) (n : String) (d : ColData) :
    getCol (setCol df n d) n = some ⟨n, d⟩ := by
  unfold getCol setCol
  by_cases hn : (df.cols.any fun col => col.name == n) = true
  · rw [if_pos hn]
    exact find_map_set df.cols n d hn
  · rw [if_neg hn]
    rw [List.find?_append]
    have h1 : df.cols.find? (fun col => col.name == n) = none := by
      rw [List.find?_eq_none]
      intro x hx
      simp only [List.any_eq_true] at hn
      exact fun hcontra => hn ⟨x, hx, hcontra⟩
    rw [h1]
    simp [List.find?]

theorem encodeColData_isNums (d : ColData) : (encodeColData d).isNums = true := by
  cases d <;> rfl

theorem castNat_toFinset_card (ns : List Nat) :
    (ns.map (fun n : Nat => (n : ℚ))).toFinset.card = ns.toFinset.card := by
  have hmap : (ns.map (fun n : Nat => (n : ℚ))).toFinset
      = ns.toFinset.image (fun n : Nat => (n : ℚ)) := by
    ext b
    simp
  rw [hmap]
  exact Finset.card_image_of_injective _ Nat.cast_injective

/-- The encoded column has exactly as many distinct codes as distinct source values. -/
theorem encodeColData_distinctCount (d : ColData) :
    (encodeColData d).distinctCount = d.distinctCount := by
  cases d with
  | nums xs =>
    rw [show encodeColData (ColData.nums xs)
        = ColData.nums ((labelEncode ratLe xs).map (fun n : Nat => (n : ℚ))) from rfl]
    show ((labelEncode ratLe xs).map (fun n : Nat => (n : ℚ))).toFinset.card = xs.toFinset.card
    rw [castNat_toFinset_card, labelEncode_card]
  | strs xs =>
    rw [show encodeColData (ColData.strs xs)
        = ColData.nums ((labelEncode strLe xs).map (fun n : Nat => (n : ℚ))) from rfl]
    show ((labelEncode strLe xs).map (fun n : Nat => (n : ℚ))).toFinset.card = xs.toFinset.card
    rw [castNat_toFinset_card, labelEncode_card]

theorem scatterHue_step1 (df : DataFrame) :
    ∀ s ∈ writtenSpecs (step1 df), ∀ x y hu st pal,
      s.kind = ChartKind.scatter x y hu st pal → hu = encodedHue df := by
  by_cases h1 : hasCol df "Coerencia (Humana)" = true <;>
  by_cases h2 : hasCol df "Relevancia (Humana)" = true <;>
  by_cases h3 : hasCol df "Profundidade (Humana)" = true <;>
  by_cases h4 : hasCol df "Consciencia (Humana)" = true <;>
    simp [step1, humanCols, h1, h2, h3, h4, writtenSpecs, generate_histogram, save_fig,
      create_figure]

theorem scatterHue_step2 (df : DataFrame) :
    ∀ s ∈ writtenSpecs (step2 df), ∀ x y hu st pal,
      s.kind = ChartKind.scatter x y hu st pal → hu = encodedHue df := by
  by_cases h0 : hasCol df "CategoriaPrompt" = true <;>
  by_cases h1 : hasCol df "Coerencia (Humana)" = true <;>
  by_cases h2 : hasCol df "Relevancia (Humana)" = true <;>
  by_cases h3 : hasCol df "Profundidade (Humana)" = true <;>
  by_cases h4 : hasCol df "Consciencia (Humana)" = true <;>
    simp [step2, humanCols, h0, h1, h2, h3, h4, writtenSpecs, generate_boxplot, save_fig,
      create_figure]

theorem scatterHue_step3 (df : DataFrame) :
    ∀ s ∈ writtenSpecs (step3 df), ∀ x y hu st pal,
      s.kind = ChartKind.scatter x y hu st pal → hu = encodedHue df := by
  by_cases h1 : hasCol df "BLEU" = true <;> by_cases h2 : hasCol df "ROUGE" = true <;>
    simp [step3, h1, h2, writtenSpecs, generate_scatterplot, save_fig, create_figure] <;>
    exact fun x y hu st pal hx hy hh hst hpal => hh.symm

theorem scatterHue_step4 (df : DataFrame) :
    ∀ s ∈ writtenSpecs (step4 df), ∀ x y hu st pal,
      s.kind = ChartKind.scatter x y hu st pal → hu = encodedHue df := by
  by_cases h1 : hasCol df "Perplexidade" = true <;>
    simp [step4, h1, writtenSpecs, generate_histogram, save_fig, create_figure]

theorem scatterHue_step5 (df : DataFrame) :
    ∀ s ∈ writtenSpecs (step5 df), ∀ x y hu st pal,
      s.kind = ChartKind.scatter x y hu st pal → hu = encodedHue df := by
  by_cases h1 : hasCol df "Perplexidade" = true <;>
  by_cases h2 : hasCol df "CategoriaPrompt" = true <;>
    simp [step5, h1, h2, writtenSpecs, generate_violinplot, save_fig, create_figure]

theorem scatterHue_step6 (df : DataFrame) :
    ∀ s ∈ writtenSpecs (step6 df), ∀ x y hu st pal,
      s.kind = ChartKind.scatter x y hu st pal → hu = encodedHue df := by
  by_cases h1 : hasCol df "Perplexidade" = true <;>
  by_cases h2 : hasCol df "Coerencia (Humana)" = true <;>
    simp [step6, h1, h2, writtenSpecs, generate_scatterplot, save_fig, create_figure] <;>
    exact fun x y hu st pal hx hy hh hst hpal => hh.symm

theorem scatterHue_step7 (df : DataFrame) :
    ∀ s ∈ writtenSpecs (step7 df), ∀ x y hu st pal,
      s.kind = ChartKind.scatter x y hu st pal → hu = encodedHue df := by
  simp [step7, writtenSpecs, generate_heatmap, save_fig, create_figure]

theorem scatterHue_step8 (df : DataFrame) :
    ∀ s ∈ writtenSpecs (step8 df), ∀ x y hu st pal,
      s.kind = ChartKind.scatter x y hu st pal → hu = encodedHue df := by
  by_cases h1 : hasCol df "Diversidade" = true <;>
  by_cases h2 : hasCol df "Originalidade" = true <;>
    simp [step8, h1, h2, writtenSpecs, generate_scatterplot, save_fig, create_figure] <;>
    exact fun x y hu st pal hx hy hh hst hpal => hh.symm

theorem scatterHue_step9 (df : DataFrame) :
    ∀ s ∈ writtenSpecs (step9 df), ∀ x y hu st pal,
      s.kind = ChartKind.scatter x y hu st pal → hu = encodedHue df := by
  by_cases h1 : hasCol df "Diversidade" = true <;>
  by_cases h2 : hasCol df "CategoriaPrompt" = true <;>
    simp [step9, h1, h2, writtenSpecs, generate_boxplot, save_fig, create_figure]

theorem scatterHue_step10 (df : DataFrame) :
    ∀ s ∈ writtenSpecs (step10 df), ∀ x y hu st pal,
      s.kind = ChartKind.scatter x y hu st pal → hu = encodedHue df := by
  by_cases h1 : hasCol df "Originalidade" = true <;>
  by_cases h2 : hasCol df "CategoriaPrompt" = true <;>
    simp [step10, h1, h2, writtenSpecs, generate_boxplot, save_fig, create_figure]

theorem scatterHue_step11 (df : DataFrame) :
    ∀ s ∈ writtenSpecs (step11 df), ∀ x y hu st pal,
      s.kind = ChartKind.scatter x y hu st pal → hu = encodedHue df := by
  by_cases h1 : hasCol df "Profundidade (Humana)" = true <;>
  by_cases h2 : hasCol df "Consciencia (Humana)" = true <;>
    simp [step11, h1, h2, writtenSpecs, generate_scatterplot, save_fig, create_figure] <;>
    exact fun x y hu st pal hx hy hh hst hpal => hh.symm

/-- Every scatter chart the analysis stage draws uses the conditional hue argument:
the name of the encoded column when it is present, `None` otherwise. -/
theorem scatterHue_analysis (df : DataFrame) :
    ∀ s ∈ writtenSpecs (analysisStage df), ∀ x y hu st pal,
      s.kind = ChartKind.scatter x y hu st pal → hu = encodedHue df := by
  intro s hs
  simp only [analysisStage, writtenSpecs_append, List.mem_append] at hs
  rcases hs with ((((((((((h | h) | h) | h) | h) | h) | h) | h) | h) | h) | h)
  · exact scatterHue_step1 df s h
  · exact scatterHue_step2 df s h
  · exact scatterHue_step3 df s h
  · exact scatterHue_step4 df s h
  · exact scatterHue_step5 df s h
  · exact scatterHue_step6 df s h
  · exact scatterHue_step7 df s h
  · exact scatterHue_step8 df s h
  · exact scatterHue_step9 df s h
  · exact scatterHue_step10 df s h
  · exact scatterHue_step11 df s h

theorem mem_writtenImages {p : String} {s : ChartSpec} {effs : List Effect}
    (h : Effect.writeImage p s ∈ effs) : p ∈ writtenImages effs :=
  List.mem_filterMap.2 ⟨_, h, rfl⟩

/-! ## Claims -/

/-- C4: On any acquisition failure (network error, 4xx/5xx HTTP status, UTF-8
decode failure, or CSV parse failure), `load_data_from_url` returns the
no-dataset signal instead of propagating an exception, and the run terminates
with a diagnostic before any analysis step executes, producing zero image
artifacts. -/
theorem acquisition_failure_aborts (f : FetchOutcome) (h : acquisitionFails f = true) :
    (load_data_from_url f).1 = none ∧
    writtenImages (mainRun f) = [] ∧
    ∃ m, mainRun f = startupEffects ++
      [Effect.message ("Erro ao carregar dados da URL: " ++ m),
        Effect.message "Não foi possível carregar os dados. Encerrando.", Effect.exitRun] := by
  obtain ⟨m, hm⟩ := load_fail_cases f h
  refine ⟨by rw [hm], ?_, ⟨m, ?_⟩⟩
  · unfold mainRun
    rw [hm]
    rfl
  · unfold mainRun
    rw [hm]
    rfl

theorem acquisition_failure_aborts_witness :
    writtenImages (mainRun (FetchOutcome.netError "connection refused")) = [] ∧
    (load_data_from_url (FetchOutcome.netError "connection refused")).1 = none :=
  ⟨(acquisition_failure_aborts (FetchOutcome.netError "connection refused") (by decide)).2.1,
    (acquisition_failure_aborts (FetchOutcome.netError "connection refused") (by decide)).1⟩

/-- C5: The categorical encoder appends a new integer-coded column derived
deterministically from `CategoriaPrompt` when that column exists, with as many
distinct codes as distinct source values; when the column is absent it emits a
diagnostic and leaves the dataset unchanged. -/
theorem encoder_contract (df : DataFrame) :
    (getCol df "CategoriaPrompt" = none →
      encodeStage df =
        (df, [Effect.message "Coluna \x27CategoriaPrompt\x27 não encontrada para Label Encoding."])) ∧
    (∀ c, getCol df "CategoriaPrompt" = some c →
      hasCol df "CategoriaPrompt_encoded" = false →
      (encodeStage df).1
          = ⟨df.cols ++ [⟨"CategoriaPrompt_encoded", encodeColData c.data⟩]⟩ ∧
        (encodeStage df).2 = [] ∧
        (encodeColData c.data).isNums = true ∧
        (encodeColData c.data).distinctCount = c.data.distinctCount) := by
  constructor
  · intro hnone
    unfold encodeStage
    rw [hnone]
  · intro c hc hfresh
    have he : encodeStage df = (setCol df "CategoriaPrompt_encoded" (encodeColData c.data), []) := by
      unfold encodeStage
      rw [hc]
    rw [he]
    exact ⟨setCol_of_not_has df _ _ hfresh, rfl, encodeColData_isNums _,
      encodeColData_distinctCount _⟩

theorem encoder_contract_witness :
    (encodeStage dfOnlyCat).1
        = ⟨dfOnlyCat.cols ++
            [⟨"CategoriaPrompt_encoded", encodeColData (ColData.strs ["x", "y", "x"])⟩]⟩ ∧
    (encodeColData (ColData.strs ["x", "y", "x"])).distinctCount
        = (ColData.strs ["x", "y", "x"]).distinctCount :=
  ⟨((encoder_contract dfOnlyCat).2 ⟨"CategoriaPrompt", ColData.strs ["x", "y", "x"]⟩
      (by decide) (by decide)).1,
    ((encoder_contract dfOnlyCat).2 ⟨"CategoriaPrompt", ColData.strs ["x", "y", "x"]⟩
      (by decide) (by decide)).2.2.2⟩

/-- C6: The correlation-heatmap operation computes its matrix over exactly the
numeric-typed columns of the dataset — for a table with one string column and
two numeric columns the matrix is exactly 2×2 — and renders with the fixed
two-decimal numeric format. -/
theorem heatmap_numeric_only (df : DataFrame) (t fn : String) (an : Bool) :
    writtenSpecs (generate_heatmap df t fn an)
        = [⟨df, ChartKind.heatmap (corrLabels df) an ".2f" DEFAULT_PALETTE, t⟩] ∧
    corrLabels df = (df.cols.filter (fun c => c.data.isNums)).map (fun c => c.name) ∧
    writtenSpecs (step7 df)
        = [⟨df, ChartKind.heatmap (corrLabels df) true ".2f" DEFAULT_PALETTE,
            "Heatmap de Correlação"⟩] ∧
    (∀ nm sx n1 q1 n2 q2,
      df.cols = [⟨nm, ColData.strs sx⟩, ⟨n1, ColData.nums q1⟩, ⟨n2, ColData.nums q2⟩] →
      corrLabels df = [n1, n2] ∧ (corrLabels df).length = 2) := by
  refine ⟨rfl, rfl, rfl, ?_⟩
  intro nm sx n1 q1 n2 q2 hcols
  constructor
  · simp [corrLabels, select_numeric, hcols, ColData.isNums]
  · simp [corrLabels, select_numeric, hcols, ColData.isNums]

theorem heatmap_numeric_only_witness :
    corrLabels dfMixed = ["nota", "peso"] ∧ (corrLabels dfMixed).length = 2 :=
  (heatmap_numeric_only dfMixed "t" "f" true).2.2.2 "nome" ["a", "b"] "nota" [1, 2] "peso" [3, 4]
    rfl

/-- C7: The in-memory dataset is mutated at most once per run — by the addition
of the derived categorical-code column during the encoding stage — and every
chart the generators write renders from that same dataset; no chart-generator
operation modifies any column or row. -/
theorem dataset_single_mutation (df : DataFrame)
    (hfresh : hasCol df "CategoriaPrompt_encoded" = false) :
    (∀ s ∈ writtenSpecs (pipelineAfterLoad df), s.data = (encodeStage df).1) ∧
    ((encodeStage df).1 = df ∨
      ∃ d, (encodeStage df).1 = ⟨df.cols ++ [⟨"CategoriaPrompt_encoded", d⟩]⟩) := by
  constructor
  · intro s hs
    unfold pipelineAfterLoad at hs
    rw [writtenSpecs_append, writtenSpecs_append, specs_encodeStage_snd] at hs
    simp only [List.nil_append, List.mem_append] at hs
    rcases hs with hs | hs
    · exact specs_analysis _ s hs
    · simp [writtenSpecs] at hs
  · unfold encodeStage
    cases hg : getCol df "CategoriaPrompt" with
    | none => exact Or.inl rfl
    | some c =>
      exact Or.inr ⟨encodeColData c.data, setCol_of_not_has df _ _ hfresh⟩

theorem dataset_single_mutation_witness :
    (ChartSpec.mk dfBleuRouge
        (ChartKind.heatmap ["BLEU", "ROUGE"] true ".2f" DEFAULT_PALETTE)
        "Heatmap de Correlação").data = (encodeStage dfBleuRouge).1 :=
  (dataset_single_mutation dfBleuRouge (by decide)).1
    ⟨dfBleuRouge, ChartKind.heatmap ["BLEU", "ROUGE"] true ".2f" DEFAULT_PALETTE,
      "Heatmap de Correlação"⟩ (by decide)

/-- C8: The derived `CategoriaPrompt_encoded` column assigns code i to the i-th
smallest distinct source value in ascending code-point order, so the coding is
deterministic across runs for any fixed multiset of source values (sorted
order, not first appearance). -/
theorem encoding_sorted_order (xs : List String) :
    labelEncode strLe xs = xs.map (fun v => (labelClasses strLe xs).indexOf v) ∧
    List.Sorted (fun a b => strLe a b = true) (labelClasses strLe xs) ∧
    (labelClasses strLe xs).Nodup ∧
    (∀ v, v ∈ labelClasses strLe xs ↔ v ∈ xs) ∧
    (∀ i : Fin (labelClasses strLe xs).length,
      (labelClasses strLe xs).indexOf ((labelClasses strLe xs).get i) = i) ∧
    (∀ ys, List.Perm xs ys → labelClasses strLe xs = labelClasses strLe ys) ∧
    (∀ df c, getCol df "CategoriaPrompt" = some c → c.data = ColData.strs xs →
      getCol (encodeStage df).1 "CategoriaPrompt_encoded"
        = some ⟨"CategoriaPrompt_encoded",
            ColData.nums ((labelEncode strLe xs).map (fun n : Nat => (n : ℚ)))⟩) := by
  refine ⟨rfl, labelClasses_sorted_str xs, labelClasses_nodup _ _,
    fun v => mem_labelClasses _ _ v, fun i => labelClasses_indexOf_get _ _ i,
    fun ys h => labelClasses_perm_invariant xs ys h, ?_⟩
  intro df c hgc hdata
  have he : encodeStage df = (setCol df "CategoriaPrompt_encoded" (encodeColData c.data), []) := by
    unfold encodeStage
    rw [hgc]
  rw [he, getCol_setCol, hdata]
  rfl

theorem encoding_sorted_order_witness :
    labelClasses strLe ["tecnico", "criativo", "criativo"]
      = labelClasses strLe ["criativo", "tecnico", "criativo"] :=
  (encoding_sorted_order ["tecnico", "criativo", "criativo"]).2.2.2.2.2.1
    ["criativo", "tecnico", "criativo"] (by decide)

/-- C1 (counterexample): a full run over a dataset with every expected column
writes seventeen image artifacts, not eleven — the histogram block and the
boxplot block each contribute four images, one per human-evaluation column. -/
theorem full_run_writes_seventeen_not_eleven :
    (writtenImages (mainRun fullFetch)).length = 17 ∧
    ¬((writtenImages (mainRun fullFetch)).length = 11) := by decide

/-- C1 (amended): for a dataset containing every expected column, one full run
of the main sequence produces exactly seventeen image artifacts — four
histograms, four boxplots, and one image for each of blocks 3 through 11 —
each written under its fixed filename in the output directory. -/
theorem full_run_artifacts (f : FetchOutcome) (df : DataFrame)
    (hload : (load_data_from_url f).1 = some df)
    (hcols : ∀ c ∈ expectedColumns, hasCol df c = true) :
    writtenImages (mainRun f) = allArtifactPaths := by
  have hl := load_success_shape f df hload
  unfold mainRun
  rw [hl]
  show writtenImages (startupEffects ++ ([] ++ pipelineAfterLoad df)) = allArtifactPaths
  rw [writtenImages_append, writtenImages_append, images_pipeline]
  rw [List.filter_eq_self.2 (allPresent_encode_of_all df hcols)]
  rfl

theorem full_run_artifacts_witness : writtenImages (mainRun fullFetch) = allArtifactPaths :=
  full_run_artifacts fullFetch fullDf (by decide) (by decide)

/-- C2 (counterexample): on a dataset where every one of the ten expected
columns is absent — it carries a single numeric column under the unrelated
name `foo`, so any column-existence predicate over expected columns fails —
the analysis stage prints sixteen diagnostics (one per gated chart, none for
block 7) and still invokes the heatmap generator, which renders a non-empty
1×1 correlation matrix over `foo` and writes `7_heatmap.png`.  Block 7 is
therefore not gated by any column-existence predicate, refuting the claim that
every one of the eleven analysis steps is so gated. -/
theorem heatmap_runs_ungated :
    expectedColumns.all (fun c => !(hasCol dfOnlyFoo c)) = true ∧
    corrLabels dfOnlyFoo = ["foo"] ∧
    writtenImages (analysisStage dfOnlyFoo) = [jp GRAPHPATH "7_heatmap.png"] ∧
    (diagnostics (analysisStage dfOnlyFoo)).length = 16 := by decide

/-- C2 (amended): every analysis chart except the correlation heatmap is gated
by a column-existence predicate — its artifact is written exactly when every
column its guard checks is present, and a failing guard prints that chart's
diagnostic and skips it (blocks 1 and 2 gate each of their four charts per
column) — while the heatmap (block 7) has an empty guard set and is invoked
unconditionally on every run. -/
theorem analysis_gating (df : DataFrame) (a : ArtifactSpec) (ha : a ∈ artifactTable) :
    (jp GRAPHPATH a.filename ∈ writtenImages (analysisStage df) ↔ allPresent df a = true) ∧
    (allPresent df a = false → a.diag ∈ diagnostics (analysisStage df)) ∧
    (a.filename = "7_heatmap.png" →
      a.required = [] ∧ jp GRAPHPATH a.filename ∈ writtenImages (analysisStage df)) := by
  obtain ⟨hiff, hdiag⟩ := gating_helper df a ha
  refine ⟨hiff, hdiag, fun h7 => ?_⟩
  have hreq := artifactTable_heatmap_ungated a ha h7
  refine ⟨hreq, hiff.2 ?_⟩
  rw [allPresent, hreq]
  rfl

theorem analysis_gating_witness :
    jp GRAPHPATH "4_hist_perplexidade.png" ∈ writtenImages (analysisStage dfOnlyPerp) :=
  (analysis_gating dfOnlyPerp
      ⟨"4_hist_perplexidade.png", ["Perplexidade"], "Coluna \x27Perplexidade\x27 não encontrada."⟩
      (by decide)).1.mpr (by decide)

/-- C3 (counterexample): removing the single column `Perplexidade` from a
fully-populated dataset skips three analysis steps (blocks 4, 5 and 6), not
only one — a single missing column can disable several steps, refuting "only
the analysis step corresponding to that column is skipped". -/
theorem missing_perplexidade_skips_three_steps :
    hasCol dfNoPerp "Perplexidade" = false ∧
    expectedColumns.all (fun c => (c == "Perplexidade") || hasCol dfNoPerp c) = true ∧
    ¬(jp GRAPHPATH "4_hist_perplexidade.png" ∈ writtenImages (pipelineAfterLoad dfNoPerp)) ∧
    ¬(jp GRAPHPATH "5_violin_perplexidade.png" ∈ writtenImages (pipelineAfterLoad dfNoPerp)) ∧
    ¬(jp GRAPHPATH "6_scatter_perplexidade_coerencia.png"
        ∈ writtenImages (pipelineAfterLoad dfNoPerp)) ∧
    (writtenImages (pipelineAfterLoad dfNoPerp)).length = 14 := by decide

/-- C3 (amended): for a dataset missing exactly one expected column, exactly
the analysis charts whose guards check that column are skipped — possibly
several — and every chart whose guard does not mention it still produces its
artifact, in program order (step independence). -/
theorem missing_column_skips_exactly_dependents (df : DataFrame) (m : String)
    (hm : m ∈ expectedColumns) (hmiss : hasCol df m = false)
    (hrest : ∀ c ∈ expectedColumns, c ≠ m → hasCol df c = true) :
    writtenImages (pipelineAfterLoad df)
      = (artifactTable.filter (fun a => !(a.required.contains m))).map
          (fun a => jp GRAPHPATH a.filename) := by
  rw [images_pipeline]
  rw [List.filter_congr (allPresent_encode_of_missing df m hm hmiss hrest)]

theorem missing_column_skips_witness :
    writtenImages (pipelineAfterLoad dfNoBleu)
      = (artifactTable.filter (fun a => !(a.required.contains "BLEU"))).map
          (fun a => jp GRAPHPATH a.filename) :=
  missing_column_skips_exactly_dependents dfNoBleu "BLEU" (by decide) (by decide) (by decide)

/-- C9: each scatterplot step (blocks 3, 6, 8 and 11) writes its artifact
whenever its two required numeric columns exist, regardless of whether
`CategoriaPrompt` exists; the hue argument of every scatter chart is
`CategoriaPrompt_encoded` when that derived column is present and `None`
otherwise, so absence of the categorical column never disables a scatterplot
step. -/
theorem scatter_independent_of_category (df : DataFrame) :
    (hasCol df "BLEU" = true → hasCol df "ROUGE" = true →
      Effect.writeImage (jp GRAPHPATH "3_scatter_bleu_rouge.png")
          ⟨df, ChartKind.scatter "BLEU" "ROUGE" (encodedHue df) none DEFAULT_PALETTE,
            "BLEU vs. ROUGE"⟩ ∈ analysisStage df) ∧
    (hasCol df "Perplexidade" = true → hasCol df "Coerencia (Humana)" = true →
      Effect.writeImage (jp GRAPHPATH "6_scatter_perplexidade_coerencia.png")
          ⟨df, ChartKind.scatter "Perplexidade" "Coerencia (Humana)" (encodedHue df) none
              DEFAULT_PALETTE, "Perplexidade vs. Coerência"⟩ ∈ analysisStage df) ∧
    (hasCol df "Diversidade" = true → hasCol df "Originalidade" = true →
      Effect.writeImage (jp GRAPHPATH "8_scatter_diversidade_originalidade.png")
          ⟨df, ChartKind.scatter "Diversidade" "Originalidade" (encodedHue df) none
              DEFAULT_PALETTE, "Diversidade vs. Originalidade"⟩ ∈ analysisStage df) ∧
    (hasCol df "Profundidade (Humana)" = true → hasCol df "Consciencia (Humana)" = true →
      Effect.writeImage (jp GRAPHPATH "11_scatter_profundidade_consciencia.png")
          ⟨df, ChartKind.scatter "Profundidade (Humana)" "Consciencia (Humana)" (encodedHue df)
              none DEFAULT_PALETTE, "Profundidade vs. Consciência"⟩ ∈ analysisStage df) ∧
    (∀ s ∈ writtenSpecs (analysisStage df), ∀ x y hu st pal,
      s.kind = ChartKind.scatter x y hu st pal → hu = encodedHue df) ∧
    encodedHue df
      = (if hasCol df "CategoriaPrompt_encoded" = true then some "CategoriaPrompt_encoded"
          else none) := by
  refine ⟨?_, ?_, ?_, ?_, scatterHue_analysis df, rfl⟩
  · intro h1 h2
    have h3 : Effect.writeImage (jp GRAPHPATH "3_scatter_bleu_rouge.png")
        ⟨df, ChartKind.scatter "BLEU" "ROUGE" (encodedHue df) none DEFAULT_PALETTE,
          "BLEU vs. ROUGE"⟩ ∈ step3 df := by
      simp [step3, h1, h2, generate_scatterplot, save_fig, create_figure, jp]
    simp only [analysisStage, List.mem_append]
    tauto
  · intro h1 h2
    have h6 : Effect.writeImage (jp GRAPHPATH "6_scatter_perplexidade_coerencia.png")
        ⟨df, ChartKind.scatter "Perplexidade" "Coerencia (Humana)" (encodedHue df) none
            DEFAULT_PALETTE, "Perplexidade vs. Coerência"⟩ ∈ step6 df := by
      simp [step6, h1, h2, generate_scatterplot, save_fig, create_figure, jp]
    simp only [analysisStage, List.mem_append]
    tauto
  · intro h1 h2
    have h8 : Effect.writeImage (jp GRAPHPATH "8_scatter_diversidade_originalidade.png")
        ⟨df, ChartKind.scatter "Diversidade" "Originalidade" (encodedHue df) none
            DEFAULT_PALETTE, "Diversidade vs. Originalidade"⟩ ∈ step8 df := by
      simp [step8, h1, h2, generate_scatterplot, save_fig, create_figure, jp]
    simp only [analysisStage, List.mem_append]
    tauto
  · intro h1 h2
    have h11 : Effect.writeImage (jp GRAPHPATH "11_scatter_profundidade_consciencia.png")
        ⟨df, ChartKind.scatter "Profundidade (Humana)" "Consciencia (Humana)" (encodedHue df)
            none DEFAULT_PALETTE, "Profundidade vs. Consciência"⟩ ∈ step11 df := by
      simp [step11, h1, h2, generate_scatterplot, save_fig, create_figure, jp]
    simp only [analysisStage, List.mem_append]
    tauto

theorem scatter_independent_witness :
    Effect.writeImage (jp GRAPHPATH "3_scatter_bleu_rouge.png")
        ⟨dfBleuRouge, ChartKind.scatter "BLEU" "ROUGE" (encodedHue dfBleuRouge) none
            DEFAULT_PALETTE, "BLEU vs. ROUGE"⟩ ∈ analysisStage dfBleuRouge :=
  (scatter_independent_of_category dfBleuRouge).1 (by decide) (by decide)

theorem load_snd_images (f : FetchOutcome) :
    writtenImages (load_data_from_url f).2 = [] := by
  cases f with
  | netError m => rfl
  | response status body =>
    by_cases hs : raisesForStatus status = true
    · simp [load_data_from_url, hs, writtenImages]
    · have hs' : raisesForStatus status = false := by simpa using hs
      cases body with
      | none => simp [load_data_from_url, hs', writtenImages]
      | some content =>
        cases hrc : read_csv content <;>
          simp [load_data_from_url, hs', hrc, writtenImages]

/-- C10: every run creates the summaries directory (`SUMMARYPATH`) at startup
but never writes any file into it: every file output of the program is an
image written by `save_fig` under the graphics directory (`GRAPHPATH`), at one
of the seventeen tabulated artifact paths. -/
theorem outputs_only_under_graphpath (f : FetchOutcome) :
    (mainRun f).take 3 = startupEffects ∧
    Effect.mkdir SUMMARYPATH ∈ mainRun f ∧
    (∀ p s, Effect.writeImage p s ∈ mainRun f →
      (∃ a ∈ artifactTable, p = jp GRAPHPATH a.filename) ∧
      underDir GRAPHPATH p = true ∧ underDir SUMMARYPATH p = false) := by
  refine ⟨?_, ?_, ?_⟩
  · unfold mainRun
    rw [List.take_append_of_le_length (by decide)]
    rfl
  · unfold mainRun
    exact List.mem_append_left _ (by decide)
  · intro p s hmem
    have hp : p ∈ writtenImages (mainRun f) := mem_writtenImages hmem
    have himg : ∃ a ∈ artifactTable, p = jp GRAPHPATH a.filename := by
      unfold mainRun at hp
      rw [writtenImages_append] at hp
      have hstart : writtenImages startupEffects = [] := rfl
      rw [hstart, List.nil_append] at hp
      rcases hl : load_data_from_url f with ⟨odf, effs⟩
      rw [hl] at hp
      cases odf with
      | none =>
        rw [writtenImages_append] at hp
        have heffs : writtenImages effs = [] := by
          have := load_snd_images f
          rw [hl] at this
          exact this
        rw [heffs, List.nil_append] at hp
        simp [writtenImages] at hp
      | some df =>
        rw [writtenImages_append] at hp
        have heffs : writtenImages effs = [] := by
          have := load_snd_images f
          rw [hl] at this
          exact this
        rw [heffs, List.nil_append, images_pipeline] at hp
        rw [List.mem_map] at hp
        obtain ⟨a, haf, hpa⟩ := hp
        rw [List.mem_filter] at haf
        exact ⟨a, haf.1, hpa.symm⟩
    obtain ⟨a, ha, hpa⟩ := himg
    obtain ⟨hg, hsum⟩ := artifactTable_paths_under a ha
    exact ⟨⟨a, ha, hpa⟩, by rw [hpa]; exact hg, by rw [hpa]; exact hsum⟩

theorem outputs_only_under_graphpath_witness :
    (mainRun fullFetch).take 3 = startupEffects ∧
    Effect.mkdir SUMMARYPATH ∈ mainRun fullFetch ∧
    underDir SUMMARYPATH (jp GRAPHPATH "7_heatmap.png") = false :=
  ⟨(outputs_only_under_graphpath fullFetch).1,
    (outputs_only_under_graphpath fullFetch).2.1,
    ((outputs_only_under_graphpath fullFetch).2.2 (jp GRAPHPATH "7_heatmap.png")
        ⟨(encodeStage fullDf).1,
          ChartKind.heatmap (corrLabels (encodeStage fullDf).1) true ".2f" DEFAULT_PALETTE,
          "Heatmap de Correlação"⟩ (by decide)).2.2⟩
